import Mathlib

/-!
Verification of `src/__main__.py` of the URI-ABD/anomaly repository.

The script is a click-based CLI harness.  We shallowly embed its pure parts
(path-naming helpers, the `State` context object, the metric table) directly,
and its command bodies (`build`, `test`, `plot_results`, `plot_data`,
`animate`) as executable trace functions: each external call (dataset
reader, pyclam manifold operations, glob, plotting) becomes an event in an
event list, and the surrounding filesystem / library environment is passed
in as explicit function parameters.  Exceptions are modelled with an
explicit success flag on the produced trace: an uncaught exception aborts
the run, a caught one is logged as an event and execution continues,
mirroring the structure of the Python code.

Python strings are modelled as `List Char`; `str.split(sep)` (for the
non-empty separators `':'`, `'.pickle'`, `'/'` used by the script) is
modelled by `pySplit`, defined with an explicit fuel argument so that it is
structurally recursive and hence evaluable by `decide`/`rfl`.
-/

set_option linter.unusedVariables false

/-- Python strings are modelled as lists of characters. -/
abbrev Str := List Char

/-- `strStartsWith p s` is Python `s.startswith(p)`: `p` is an initial
segment of `s`. -/
def strStartsWith : Str → Str → Bool
  | [], _ => true
  | _ :: _, [] => false
  | a :: p, b :: s => a == b && strStartsWith p s

/-- Python `sep in s` (substring occurrence test), used only to state
hypotheses about separator-free strings. -/
def containsSub : Str → Str → Bool
  | s, sep =>
    strStartsWith sep s ||
    match s with
    | [] => false
    | _ :: t => containsSub t sep

/-- Fuel-indexed worker for `pySplit`.  The fuel only serves to make the
recursion structural; `pySplit` always supplies enough fuel. -/
def pySplitF (sep : Str) : Nat → Str → List Str
  | _, [] => [[]]
  | 0, s => [s]
  | fuel + 1, c :: rest =>
    if sep ≠ [] ∧ strStartsWith sep (c :: rest) then
      [] :: pySplitF sep fuel (rest.drop (sep.length - 1))
    else
      match pySplitF sep fuel rest with
      | [] => [[c]]
      | t :: ts => (c :: t) :: ts

/-- Python `s.split(sep)` for a non-empty separator `sep`: splits `s` at
every (leftmost-first, non-overlapping) occurrence of `sep`.  E.g.
`"a:b".split(":") = ["a", "b"]`, `"ab".split("ab") = ["", ""]`. -/
def pySplit (sep s : Str) : List Str := pySplitF sep s.length s

/-- `os.path.basename` on POSIX: everything after the last `'/'`. -/
def basename (p : Str) : Str := (pySplit ['/'] p).getLastD []

/-- Two-argument `os.path.join` on POSIX, for a first component that is
non-empty and does not end in `'/'` (true of `BUILD_DIR`, an absolute
normalized path, and of its `svm` subdirectory): an absolute second
component replaces the first, otherwise the two are joined with `'/'`. -/
def pathJoin (a b : Str) : Str := if b.head? = some '/' then b else a ++ '/' :: b

/-- `BUILD_DIR = os.path.abspath(os.path.join(os.path.dirname(__file__),
'..', 'build'))`: an absolute path ending in `build` whose exact value
depends on where the repository is checked out.  We fix a representative
absolute path; the theorems below only depend on it being slash-terminated
by `pathJoin`, never on its exact value. -/
def BUILD_DIR : Str := "/home/user/anomaly/build".data

/-- The `.pickle` suffix appended by `_manifold_path` and stripped by
`_meta_from_path`. -/
def pickleExt : Str := ".pickle".data

/-- Python `str(i)` for an int. -/
def intToStr (i : Int) : Str := (toString i).data

/-- `_manifold_path(dataset, metric, min_points, graph_ratio)`:
`os.path.join(BUILD_DIR, ':'.join(map(str, [dataset, metric, min_points,
f'{graph_ratio}.pickle'])))`.  All four arguments are taken as strings;
callers that pass ints (the `build` command) apply `intToStr`, mirroring
`map(str, ...)`. -/
def _manifold_path (dataset metric min_points graph_ratio : Str) : Str :=
  pathJoin BUILD_DIR
    (List.intercalate [':'] [dataset, metric, min_points, graph_ratio ++ pickleExt])

/-- `_dataset_from_path(path)`: `os.path.basename(path).split(':')[0]`.
The `[0]` index never fails because `split` always returns a non-empty
list. -/
def _dataset_from_path (path : Str) : Str :=
  (pySplit [':'] (basename path)).headD []

/-- `_metric_from_path(path)`: `os.path.basename(path).split(':')[1]`;
`none` models the `IndexError` raised when the basename has no `':'`. -/
def _metric_from_path (path : Str) : Option Str :=
  (pySplit [':'] (basename path))[1]?

/-- The dict returned by `_meta_from_path`. -/
structure ManifoldMeta where
  dataset : Str
  metric : Str
  min_points : Str
  graph_ratio : Str
deriving DecidableEq, Repr

/-- `_meta_from_path(path)`: splits the basename on `':'` and strips the
`.pickle` suffix from the fourth field; `none` models the `IndexError`
raised when fewer than four `':'`-separated fields are present. -/
def _meta_from_path (path : Str) : Option ManifoldMeta :=
  let bundle := pySplit [':'] (basename path)
  match bundle[0]?, bundle[1]?, bundle[2]?, bundle[3]? with
  | some d, some m, some mp, some gr =>
    some ⟨d, m, mp, (pySplit pickleExt gr).headD []⟩
  | _, _, _, _ => none

/-- The path `os.path.join(BUILD_DIR, 'svm', ':'.join([dataset, metric]))`
used by the `svm` command to cache models (line 227). -/
def svmModelPath (dataset metric : Str) : Str :=
  pathJoin (pathJoin BUILD_DIR ("svm".data)) (List.intercalate [':'] [dataset, metric])

/-! ## The `State` context object and the `Manifold` abstraction -/

/-- Abstraction of a `pyclam.manifold.Manifold` object carried in the chained
state: the only attributes the script reads from a manifold object are its
`depth` and (in `plot_results`) its `metric`. -/
structure ManifoldObj where
  depth : Nat
  metric : Str
deriving DecidableEq, Repr

/-- A Python value as read from a `State` attribute.  `classAttr` stands
for an attribute found on the `State` class (or inherited from `object`)
by normal attribute lookup — a bound method, the class docstring, the
class object itself, etc.; its actual value is abstracted because the
script never reads such attributes of a `State`. -/
inductive PyVal where
  | none
  | str (s : Str)
  | manifold (m : ManifoldObj)
  | classAttr
deriving DecidableEq, Repr

/-- The `State` object passed between chained commands: `__init__` assigns
`dataset`, `metric` and `manifold` (each possibly `None`). -/
structure State where
  dataset : Option Str
  metric : Option Str
  manifold : Option ManifoldObj
deriving DecidableEq, Repr

def pyOfOptStr : Option Str → PyVal
  | Option.none => PyVal.none
  | Option.some s => PyVal.str s

def pyOfOptManifold : Option ManifoldObj → PyVal
  | Option.none => PyVal.none
  | Option.some m => PyVal.manifold m

/-- Attribute names that normal Python lookup resolves on the `State`
class rather than on the instance: the members defined in the class body
(`__init__`, `__getattr__`), the class docstring (`__doc__`), and the
standard attributes every user-defined class has from `object` (the
CPython 3.8 inventory; later interpreter versions add a few more such
dunder names, which would extend this list but change nothing below). -/
def stateClassAttrNames : List Str :=
  ["__init__", "__getattr__", "__doc__", "__module__", "__dict__", "__weakref__",
   "__class__", "__delattr__", "__dir__", "__eq__", "__format__", "__ge__",
   "__getattribute__", "__gt__", "__hash__", "__init_subclass__", "__le__",
   "__lt__", "__ne__", "__new__", "__reduce__", "__reduce_ex__", "__repr__",
   "__setattr__", "__sizeof__", "__str__", "__subclasshook__"].map String.data

/-- Python attribute lookup on a `State`: the three attributes assigned in
`__init__` are found in the instance `__dict__`; any name defined on the
class or inherited from `object` is found by normal class-attribute lookup
(the two sets are disjoint, so the branch order is immaterial); only when
both lookups fail does Python call `State.__getattr__`, which returns
`None`. -/
def State.getattr (st : State) (name : Str) : PyVal :=
  if name = "dataset".data then pyOfOptStr st.dataset
  else if name = "metric".data then pyOfOptStr st.metric
  else if name = "manifold".data then pyOfOptManifold st.manifold
  else if name ∈ stateClassAttrNames then PyVal.classAttr
  else PyVal.none

/-- Python truthiness of an optional string: `None` and `''` are falsy. -/
def pyTruthy : Option Str → Bool
  | Option.none => false
  | Option.some s => !s.isEmpty

/-- `[x] if x else keys`: the pattern used to turn an optional CLI choice
into the list of values to iterate over (`datasets`, `metrics`, `methods`,
`plots`). -/
def singletonOrKeys (x : Option Str) (keys : List Str) : List Str :=
  if pyTruthy x then [x.getD []] else keys

/-- `x or '*'` for an attribute value read from the state (lines 129/169):
falsy values (`None`, `''`) are replaced by the glob wildcard.  The
attributes this is applied to (`datset`, `metric`) never hold a manifold
object or a class attribute, so those cases are unreachable. -/
def pyValOrStar (v : PyVal) : Str :=
  match v with
  | PyVal.none => "*".data
  | PyVal.str s => if s.isEmpty then "*".data else s
  | PyVal.manifold _ => "*".data
  | PyVal.classAttr => "*".data

/-- The glob pattern built by `test` (line 129) and `plot_results`
(line 169): `_manifold_path(state.datset or '*', state.metric or '*',
min_points, graph_ratio)`.  Note the source really spells `datset` (sic):
that attribute is never assigned, so `State.__getattr__` makes it `None`. -/
def cachedManifoldGlobPattern (st : State) (min_points graph_ratio : Str) : Str :=
  _manifold_path (pyValOrStar (st.getattr "datset".data))
    (pyValOrStar (st.getattr "metric".data)) min_points graph_ratio

/-! ## The `build` command (lines 76-120) -/

/-- The module-level `METRICS` dict, in insertion order. -/
def METRICS : List (Str × Str) :=
  [("cosine".data, "cosine".data),
   ("euclidean".data, "euclidean".data),
   ("manhattan".data, "cityblock".data)]

def METRICS_keys : List Str := METRICS.map (fun p => p.1)

/-- `METRICS[metric]`: `none` models the `KeyError` on a missing key. -/
def lookupMetric (metric : Str) : Option Str :=
  (METRICS.find? (fun p => p.1 == metric)).map (fun p => p.2)

/-- Line 97: `min_points = max(3, min_points) if data.shape[0] > 10_000
else 3`, where `n` is `data.shape[0]`. -/
def effMinPoints (n : Nat) (min_points : Int) : Int :=
  if n > 10000 then max 3 min_points else 3

/-- Events produced by the `build` command.  `newManifold` is the
`Manifold(data, METRICS[metric])` construction; `buildTree`/`buildGraphs`
are `manifold.build_tree(MaxDepth(..), MinPoints(..))`/
`manifold.build_graphs()`; `buildFull` is `manifold.build(MaxDepth(..),
MinPoints(..))`; `setManifold` is the `state.manifold = manifold`
assignment. -/
inductive BEvent where
  | getData (dataset : Str)
  | readData (dataset : Str)
  | newManifold (metricValue : Str)
  | loadManifold (path : Str)
  | buildTree (maxDepth minPoints : Int)
  | buildGraphs
  | buildFull (maxDepth minPoints : Int)
  | dumpManifold (path : Str)
  | setManifold
deriving DecidableEq, Repr

/-- One iteration of the metric loop of `build` (lines 95-120), for the
effective `min_points` value `mp` already computed by line 97: construct
the manifold object, compute `filepath`, then either load + rebuild tree
and graphs (cache hit) or build from scratch (cache miss), and in both
cases dump back to `filepath` and store the manifold in the state. -/
def buildIterEvents (dataset metric metricValue : Str) (maxDepth mp graphRatio : Int)
    (existsOn : Str → Bool) : List BEvent :=
  let filepath := _manifold_path dataset metric (intToStr mp) (intToStr graphRatio)
  BEvent.newManifold metricValue ::
    (if existsOn filepath then
      [BEvent.loadManifold filepath, BEvent.buildTree maxDepth mp, BEvent.buildGraphs,
       BEvent.dumpManifold filepath, BEvent.setManifold]
    else
      [BEvent.buildFull maxDepth mp, BEvent.dumpManifold filepath, BEvent.setManifold])

/-- The inner `for metric in metrics` loop of `build`.  The `min_points`
local variable is threaded through (it is reassigned by line 97 on every
iteration); the `Bool` is false when `METRICS[metric]` raises `KeyError`,
which aborts the whole command. -/
def buildMetricLoop (dataset : Str) (n : Nat) (existsOn : Str → Bool)
    (maxDepth graphRatio : Int) : List Str → Int → List BEvent × Int × Bool
  | [], mp => ([], mp, true)
  | metric :: rest, mp =>
    match lookupMetric metric with
    | Option.none => ([], mp, false)
    | Option.some mv =>
      let mp' := effMinPoints n mp
      let evs := buildIterEvents dataset metric mv maxDepth mp' graphRatio existsOn
      let r := buildMetricLoop dataset n existsOn maxDepth graphRatio rest mp'
      (evs ++ r.1, r.2.1, r.2.2)

/-- The outer `for dataset in ...` loop of `build` (lines 84-120):
`get(dataset)`, `read(dataset, ...)`, then the metric loop.  `sizeOf d` is
`data.shape[0]` for dataset `d`. -/
def buildDatasetLoop (metrics : List Str) (sizeOf : Str → Nat) (existsOn : Str → Bool)
    (maxDepth graphRatio : Int) : List Str → Int → List BEvent × Int × Bool
  | [], mp => ([], mp, true)
  | d :: rest, mp =>
    let r1 := buildMetricLoop d (sizeOf d) existsOn maxDepth graphRatio metrics mp
    if r1.2.2 then
      let r2 := buildDatasetLoop metrics sizeOf existsOn maxDepth graphRatio rest r1.2.1
      (BEvent.getData d :: BEvent.readData d :: (r1.1 ++ r2.1), r2.2.1, r2.2.2)
    else
      (BEvent.getData d :: BEvent.readData d :: r1.1, r1.2.1, false)

/-- The `build` command: datasets and metrics are the chained state's
choices if set, otherwise the full registries (`DATASETS.keys()`, passed in
as `registry` since the datasets module is outside this file, and
`METRICS.keys()`).  Returns the event trace and whether the command ran to
completion. -/
def build (st : State) (registry : List Str) (sizeOf : Str → Nat) (existsOn : Str → Bool)
    (maxDepth minPoints graphRatio : Int) : List BEvent × Bool :=
  let r := buildDatasetLoop (singletonOrKeys st.metric METRICS_keys) sizeOf existsOn
    maxDepth graphRatio (singletonOrKeys st.dataset registry) minPoints
  (r.1, r.2.2)

/-! ## The `test` command (lines 123-158) -/

/-- A manifold to process: either a cached pickle path produced by `glob`,
or the manifold object carried in the chained state. -/
inductive MRef where
  | path (p : Str)
  | obj (o : ManifoldObj)
deriving DecidableEq, Repr

/-- Line 129 / line 169: `[state.manifold] if state.manifold else
glob(_manifold_path(state.datset or '*', state.metric or '*', min_points,
graph_ratio))`.  `globOn` is the filesystem's answer to a glob pattern. -/
def selectManifolds (st : State) (min_points graph_ratio : Str)
    (globOn : Str → List Str) : List MRef :=
  match st.manifold with
  | Option.some o => [MRef.obj o]
  | Option.none =>
    (globOn (cachedManifoldGlobPattern st min_points graph_ratio)).map MRef.path

/-- The depth of a processed manifold: for a pickle path, the depth of the
manifold loaded from it (`loadDepth`); for a state-carried object, its own
depth. -/
def refDepth (loadDepth : Str → Nat) : MRef → Nat
  | MRef.path p => loadDepth p
  | MRef.obj o => o.depth

/-- Events produced by the `test` command.  `readData d plain` records
`read(...)` (`plain = true` for the `read(state.dataset)` call of line 133,
`false` for the subsampling call of line 135); `callMethod` is
`METHODS[method](manifold.graphs[depth])`; `logScore` is the successful
`logging.info(... roc_auc_score(labels, ...) ...)` of lines 150-156;
`logException` is the `logging.exception(e)` of line 158. -/
inductive TEvent where
  | readData (dataset : Str) (plain : Bool)
  | loadManifold (path : Str)
  | callMethod (method : Str) (depth : Nat)
  | logScore (method : Str) (depth : Nat)
  | logException (method : Str) (depth : Nat)
deriving DecidableEq, Repr

def npbName : Str := "n_points_in_ball".data
def knName : Str := "k_nearest".data

/-- One iteration of the depth loop of `test` (lines 143-158).  The methods
`n_points_in_ball` and `k_nearest` are skipped below the maximum depth
(lines 145-146).  The `METHODS[method](manifold.graphs[depth])` call of
line 148 sits OUTSIDE the `try`, so an exception there (`mRaises`) aborts
the command; the `try` of lines 149-158 only covers the scoring/logging
statement, so an exception there (`sRaises`) is caught, logged, and the
loop continues. -/
def testIter (maxD : Nat) (mRaises sRaises : Str → Nat → Bool) (method : Str)
    (depth : Nat) : List TEvent × Bool :=
  if (method = npbName ∨ method = knName) ∧ depth < maxD then ([], true)
  else if mRaises method depth then ([TEvent.callMethod method depth], false)
  else if sRaises method depth then
    ([TEvent.callMethod method depth, TEvent.logException method depth], true)
  else ([TEvent.callMethod method depth, TEvent.logScore method depth], true)

/-- Runs `f` over the elements of a list in order, concatenating the traces;
a `false` flag (uncaught exception) aborts the remaining iterations. -/
def runSeq (f : α → List ε × Bool) : List α → List ε × Bool
  | [] => ([], true)
  | x :: xs =>
    let r := f x
    if r.2 then
      let r2 := runSeq f xs
      (r.1 ++ r2.1, r2.2)
    else (r.1, false)

/-- The nested `for method / for depth` sweep of `test` (lines 142-158);
the sweep is `range(0, manifold.depth + 1, 1)`. -/
def testSweep (maxD : Nat) (mRaises sRaises : Str → Nat → Bool)
    (methods : List Str) : List TEvent × Bool :=
  runSeq (fun method => runSeq (testIter maxD mRaises sRaises method)
    (List.range (maxD + 1))) methods

/-- The body of `for manifold in manifolds` in `test` (lines 131-158): read
the data (from the chained dataset if truthy, else from the path's dataset
field), load the manifold when it is a path, then run the sweep.  When the
manifold is a state-carried object and no dataset was chosen, line 135
calls `_dataset_from_path` on a `Manifold` object, and `os.path.basename`
raises a `TypeError`: the command aborts having produced nothing. -/
def testManifold (stDataset : Option Str) (methods : List Str) (loadDepth : Str → Nat)
    (mRaises sRaises : Str → Nat → Bool) (ref : MRef) : List TEvent × Bool :=
  match ref with
  | MRef.path p =>
    let ev0 := if pyTruthy stDataset then TEvent.readData (stDataset.getD []) true
      else TEvent.readData (_dataset_from_path p) false
    let r := testSweep (loadDepth p) mRaises sRaises methods
    (ev0 :: TEvent.loadManifold p :: r.1, r.2)
  | MRef.obj o =>
    if pyTruthy stDataset then
      let r := testSweep o.depth mRaises sRaises methods
      (TEvent.readData (stDataset.getD []) true :: r.1, r.2)
    else ([], false)

/-- The `test` command.  `methodsRegistry` is `METHODS.keys()` (the methods
module is outside this file); `globOn` and `loadDepth` abstract the
filesystem and the pickled manifolds on it. -/
def test (st : State) (methodOpt : Option Str) (min_points graph_ratio : Str)
    (methodsRegistry : List Str) (globOn : Str → List Str) (loadDepth : Str → Nat)
    (mRaises sRaises : Str → Nat → Bool) : List TEvent × Bool :=
  runSeq (testManifold st.dataset (singletonOrKeys methodOpt methodsRegistry) loadDepth
      mRaises sRaises)
    (selectManifolds st min_points graph_ratio globOn)

/-! ## The `plot_results` command (lines 161-202) -/

/-- Events produced by `plot_results`.  `plotCall p m d` is the
`RESULT_PLOTS[plot](labels, METHODS[method](manifold.graphs[depth]), ...)`
call of lines 194-202: each such event comprises one evaluation of method
`m` on the graph at depth `d`. -/
inductive PEvent where
  | readData (dataset : Str)
  | loadManifold (path : Str)
  | plotCall (plot : Str) (method : Str) (depth : Int)
deriving DecidableEq, Repr

/-- Python `range(start, stop)` over ints. -/
def intRange (start stop : Int) : List Int :=
  (List.range (stop - start).toNat).map (fun k : Nat => start + (k : Int))

/-- One (method, depth) iteration of `plot_results` (lines 189-202): the
same depth-invariant methods are skipped below the maximum depth, otherwise
every selected plot is drawn (evaluating the method once per plot). -/
def plotIter (maxD : Int) (plots : List Str) (method : Str) (depth : Int) : List PEvent :=
  if (method = npbName ∨ method = knName) ∧ depth < maxD then []
  else plots.map (fun p => PEvent.plotCall p method depth)

/-- The nested `for method / for depth / for plot` sweep of `plot_results`
(lines 188-202); the sweep is `range(starting_depth, manifold.depth + 1)`. -/
def plotSweep (maxD : Int) (startingDepth : Int) (methods plots : List Str) : List PEvent :=
  methods.flatMap (fun method =>
    (intRange startingDepth (maxD + 1)).flatMap (plotIter maxD plots method))

/-- The body of `for manifold in manifolds` in `plot_results` (lines
173-202): resolve dataset (and metric) from the state or from
`_meta_from_path`, read the data, load the manifold when it is a path, then
sweep.  A state-carried manifold object with no chained dataset makes
`_meta_from_path` call `os.path.basename` on a `Manifold` object
(`TypeError`); a path whose basename has fewer than four `':'` fields makes
`_meta_from_path` raise `IndexError`: both abort the command. -/
def plotManifold (stDataset : Option Str) (methods plots : List Str)
    (startingDepth : Int) (loadDepth : Str → Nat) (ref : MRef) : List PEvent × Bool :=
  match ref with
  | MRef.path p =>
    if pyTruthy stDataset then
      (PEvent.readData (stDataset.getD []) :: PEvent.loadManifold p ::
        plotSweep (loadDepth p) startingDepth methods plots, true)
    else
      match _meta_from_path p with
      | Option.none => ([], false)
      | Option.some meta =>
        (PEvent.readData meta.dataset :: PEvent.loadManifold p ::
          plotSweep (loadDepth p) startingDepth methods plots, true)
  | MRef.obj o =>
    if pyTruthy stDataset then
      (PEvent.readData (stDataset.getD []) ::
        plotSweep (o.depth : Int) startingDepth methods plots, true)
    else ([], false)

/-- The `plot_results` command. -/
def plot_results (st : State) (plotOpt methodOpt : Option Str) (startingDepth : Int)
    (min_points graph_ratio : Str) (methodsRegistry plotsRegistry : List Str)
    (globOn : Str → List Str) (loadDepth : Str → Nat) : List PEvent × Bool :=
  runSeq (plotManifold st.dataset (singletonOrKeys methodOpt methodsRegistry)
      (singletonOrKeys plotOpt plotsRegistry) startingDepth loadDepth)
    (selectManifolds st min_points graph_ratio globOn)

/-! ## The stubbed commands (lines 246-290) -/

inductive PyError where
  | notImplementedError
deriving DecidableEq, Repr

/-- The `plot_data` command (lines 246-272): its first statement is `raise
NotImplementedError`; everything after it is unreachable. -/
def plot_data : Except PyError Unit := Except.error PyError.notImplementedError

/-- The `animate` command (lines 275-290): its first statement is `raise
NotImplementedError`; the `ffmpeg` invocation after it is unreachable. -/
def animate (dataset metric : Str) : Except PyError Unit :=
  Except.error PyError.notImplementedError

/-! ## Lemmas about the string machinery -/

theorem pySplitF_eq_pySplit (sep : Str) : ∀ (f : Nat) (s : Str), s.length ≤ f →
    pySplitF sep f s = pySplit sep s := by
  intro f
  induction f using Nat.strong_induction_on with
  | _ f ih =>
    intro s hs
    match f, s with
    | 0, [] => rfl
    | f + 1, [] => rfl
    | 0, c :: rest => simp at hs
    | f + 1, c :: rest =>
      have hr : rest.length ≤ f := by simpa using hs
      have h1 : (rest.drop (sep.length - 1)).length ≤ rest.length := by
        simp
      show pySplitF sep (f + 1) (c :: rest) = pySplitF sep (rest.length + 1) (c :: rest)
      simp only [pySplitF]
      rw [ih f (Nat.lt_succ_self f) _ (le_trans h1 hr),
        ih f (Nat.lt_succ_self f) rest hr,
        ih rest.length (Nat.lt_succ_of_le hr) _ h1]
      rfl

theorem pySplit_cons (sep : Str) (c : Char) (rest : Str) :
    pySplit sep (c :: rest) =
      if sep ≠ [] ∧ strStartsWith sep (c :: rest) then
        [] :: pySplit sep (rest.drop (sep.length - 1))
      else
        match pySplit sep rest with
        | [] => [[c]]
        | t :: ts => (c :: t) :: ts := by
  have h1 : (rest.drop (sep.length - 1)).length ≤ rest.length := by simp
  show pySplitF sep (rest.length + 1) (c :: rest) = _
  simp only [pySplitF]
  rw [pySplitF_eq_pySplit sep rest.length _ h1]
  rfl

theorem pySplit_ne_nil (sep s : Str) : pySplit sep s ≠ [] := by
  match s with
  | [] => simp [pySplit, pySplitF]
  | c :: rest =>
    rw [pySplit_cons]
    by_cases h : sep ≠ [] ∧ strStartsWith sep (c :: rest) = true
    · simp [h]
    · rw [if_neg h]
      cases hr : pySplit sep rest with
      | nil => simp
      | cons t ts => simp

theorem strStartsWith_refl (s : Str) : strStartsWith s s = true := by
  induction s with
  | nil => rfl
  | cons c t ih => simp [strStartsWith, ih]

theorem strStartsWith_take (p : Str) : ∀ (s : Str), strStartsWith p s = true →
    s.take p.length = p := by
  induction p with
  | nil => intro s _; simp
  | cons a p' ih =>
    intro s h
    match s with
    | [] => simp [strStartsWith] at h
    | b :: s' =>
      simp only [strStartsWith, Bool.and_eq_true, beq_iff_eq] at h
      simp [List.take, h.1, ih s' h.2]

theorem strStartsWith_of_take (p : Str) : ∀ (s : Str), s.take p.length = p →
    strStartsWith p s = true := by
  induction p with
  | nil => intro s _; rfl
  | cons a p' ih =>
    intro s h
    match s with
    | [] => simp at h
    | b :: s' =>
      simp only [List.length_cons, List.take_succ_cons, List.cons.injEq] at h
      simp [strStartsWith, h.1, ih s' h.2]

theorem containsSub_cons (x : Char) (s sep : Str) :
    containsSub (x :: s) sep = (strStartsWith sep (x :: s) || containsSub s sep) := by
  rfl

theorem pySplit_single_of_not_mem (c : Char) : ∀ (s : Str), c ∉ s → pySplit [c] s = [s] := by
  intro s
  induction s with
  | nil => intro _; rfl
  | cons x rest ih =>
    intro h
    have hx : ¬ (c = x) := fun hc => h (hc ▸ List.mem_cons_self c rest)
    rw [pySplit_cons,
      if_neg (by simp [strStartsWith, hx]),
      ih (fun hm => h (List.mem_cons_of_mem x hm))]

theorem pySplit_single_append (c : Char) (b : Str) :
    ∀ (a : Str), c ∉ a → pySplit [c] (a ++ c :: b) = a :: pySplit [c] b := by
  intro a
  induction a with
  | nil =>
    intro _
    rw [List.nil_append, pySplit_cons,
      if_pos ⟨by simp, by simp [strStartsWith]⟩]
    simp
  | cons x rest ih =>
    intro h
    have hx : ¬ (c = x) := fun hc => h (hc ▸ List.mem_cons_self c rest)
    rw [List.cons_append, pySplit_cons,
      if_neg (by simp [strStartsWith, hx]),
      ih (fun hm => h (List.mem_cons_of_mem x hm))]

theorem pySplit_single_append_exists (c : Char) (b : Str) :
    ∀ (a : Str), ∃ l, l ≠ [] ∧ pySplit [c] (a ++ c :: b) = l ++ pySplit [c] b := by
  intro a
  induction a with
  | nil =>
    refine ⟨[[]], by simp, ?_⟩
    rw [List.nil_append, pySplit_cons, if_pos ⟨by simp, by simp [strStartsWith]⟩]
    simp
  | cons x rest ih =>
    obtain ⟨l, hl, he⟩ := ih
    by_cases hx : c = x
    · refine ⟨[] :: l, by simp, ?_⟩
      subst hx
      rw [List.cons_append, pySplit_cons, if_pos ⟨by simp, by simp [strStartsWith]⟩]
      simp [he]
    · cases l with
      | nil => exact absurd rfl hl
      | cons t ts =>
        refine ⟨(x :: t) :: ts, by simp, ?_⟩
        rw [List.cons_append, pySplit_cons, if_neg (by simp [strStartsWith, hx]), he]
        simp

theorem basename_append (a f : Str) (hf : '/' ∉ f) : basename (a ++ '/' :: f) = f := by
  unfold basename
  obtain ⟨l, hl, he⟩ := pySplit_single_append_exists '/' f a
  rw [he, pySplit_single_of_not_mem _ _ hf]
  cases l with
  | nil => exact absurd rfl hl
  | cons t ts =>
    rw [List.getLastD_eq_getLast?, List.getLast?_concat]
    rfl

theorem basename_no_slash (s : Str) (hs : '/' ∉ s) : basename s = s := by
  unfold basename
  rw [pySplit_single_of_not_mem _ _ hs]
  rfl

theorem pySplit_strip_suffix (sep : Str) (hsep : sep ≠ [])
    (hov : ∀ k, k < sep.length → 0 < k →
      strStartsWith sep (sep.take k ++ sep) = false) :
    ∀ (r : Str), containsSub r sep = false → pySplit sep (r ++ sep) = [r, []] := by
  intro r
  induction r with
  | nil =>
    intro _
    rw [List.nil_append]
    cases sep with
    | nil => exact absurd rfl hsep
    | cons c s' =>
      rw [pySplit_cons, if_pos ⟨by simp, strStartsWith_refl _⟩]
      simp only [List.length_cons, Nat.add_sub_cancel, List.drop_length]
      rfl
  | cons x r' ih =>
    intro h
    rw [containsSub_cons, Bool.or_eq_false_iff] at h
    have hcond : strStartsWith sep ((x :: r') ++ sep) = false := by
      by_contra hc
      rw [Bool.not_eq_false] at hc
      by_cases hlen : sep.length ≤ (x :: r').length
      · have htake := strStartsWith_take _ _ hc
        rw [List.take_append_eq_append_take,
          Nat.sub_eq_zero_of_le hlen, List.take_zero, List.append_nil] at htake
        have hsw : strStartsWith sep (x :: r') = true := strStartsWith_of_take _ _ htake
        rw [h.1] at hsw
        exact absurd hsw (by simp)
      · push_neg at hlen
        have htake := strStartsWith_take _ _ hc
        rw [List.take_append_eq_append_take,
          List.take_of_length_le (le_of_lt hlen)] at htake
        have ht : sep.take (x :: r').length = x :: r' := by
          rw [← htake, List.take_append_eq_append_take]
          simp
        have hfalse := hov (x :: r').length hlen (by simp)
        rw [ht, hc] at hfalse
        exact absurd hfalse (by simp)
    have hcond' : strStartsWith sep (x :: (r' ++ sep)) = false := by
      simpa using hcond
    rw [List.cons_append, pySplit_cons, if_neg (by simp [hcond']), ih h.2]

theorem pickleExt_no_overlap : ∀ k, k < pickleExt.length → 0 < k →
    strStartsWith pickleExt (pickleExt.take k ++ pickleExt) = false := by decide

theorem intercalate_colon_four (a b c d : Str) :
    List.intercalate [':'] [a, b, c, d] = a ++ ':' :: (b ++ ':' :: (c ++ ':' :: d)) := by
  simp [List.intercalate, List.intersperse]

theorem _manifold_path_eq (d m mp r : Str) (hd : d.head? ≠ some '/') :
    _manifold_path d m mp r =
      BUILD_DIR ++ '/' :: (d ++ ':' :: (m ++ ':' :: (mp ++ ':' :: (r ++ pickleExt)))) := by
  unfold _manifold_path pathJoin
  rw [intercalate_colon_four]
  rw [if_neg ?_]
  cases d with
  | nil => simp
  | cons c d' => simpa using hd

theorem manifold_path_bundle (d m mp r : Str)
    (hd1 : ':' ∉ d) (hd2 : '/' ∉ d) (hm1 : ':' ∉ m) (hm2 : '/' ∉ m)
    (hp1 : ':' ∉ mp) (hp2 : '/' ∉ mp) (hr1 : ':' ∉ r) (hr2 : '/' ∉ r) :
    pySplit [':'] (basename (_manifold_path d m mp r)) = [d, m, mp, r ++ pickleExt] := by
  have hslashcolon : ('/' : Char) ≠ ':' := by decide
  have hslashpickle : '/' ∉ pickleExt := by decide
  have hcolonpickle : ':' ∉ pickleExt := by decide
  have hhead : d.head? ≠ some '/' := by
    cases d with
    | nil => simp
    | cons c d' =>
      simp only [List.head?_cons, ne_eq, Option.some.injEq]
      intro hc
      exact hd2 (hc ▸ List.mem_cons_self c d')
  have hfn : '/' ∉ (d ++ ':' :: (m ++ ':' :: (mp ++ ':' :: (r ++ pickleExt)))) := by
    intro hmem
    simp only [List.mem_append, List.mem_cons] at hmem
    tauto
  rw [_manifold_path_eq d m mp r hhead, basename_append _ _ hfn,
    pySplit_single_append ':' _ d hd1, pySplit_single_append ':' _ m hm1,
    pySplit_single_append ':' _ mp hp1,
    pySplit_single_of_not_mem ':' (r ++ pickleExt)
      (fun hmem => (List.mem_append.mp hmem).elim hr1 hcolonpickle)]

theorem intercalate_colon_two (a b : Str) :
    List.intercalate [':'] [a, b] = a ++ ':' :: b := by
  simp [List.intercalate, List.intersperse]

theorem svmModelPath_eq (d m : Str) (hd : d.head? ≠ some '/') :
    svmModelPath d m = BUILD_DIR ++ '/' :: ("svm".data ++ '/' :: (d ++ ':' :: m)) := by
  have h1 : (("svm".data : Str)).head? ≠ some '/' := by decide
  have h2 : (d ++ ':' :: m).head? ≠ some '/' := by
    cases d with
    | nil => simp
    | cons c d' => simpa using hd
  unfold svmModelPath pathJoin
  rw [intercalate_colon_two, if_neg h2, if_neg h1]
  simp

/-- Claim C3, corrected.  The claim as stated only excludes `':'` and path
separators from `dataset` and `metric`, and `'.pickle'` from `graph_ratio`;
but the parse also breaks when `min_points` or `graph_ratio` contain `':'`
or a path separator (see the counterexample).  Under the amended
hypotheses, `_meta_from_path` inverts `_manifold_path` field by field, and
`_dataset_from_path` / `_metric_from_path` recover dataset and metric. -/
theorem claim_C3_amended (d m mp r : Str)
    (hd1 : ':' ∉ d) (hd2 : '/' ∉ d) (hm1 : ':' ∉ m) (hm2 : '/' ∉ m)
    (hp1 : ':' ∉ mp) (hp2 : '/' ∉ mp) (hr1 : ':' ∉ r) (hr2 : '/' ∉ r)
    (hr3 : containsSub r pickleExt = false) :
    _meta_from_path (_manifold_path d m mp r) = some ⟨d, m, mp, r⟩ ∧
    _dataset_from_path (_manifold_path d m mp r) = d ∧
    _metric_from_path (_manifold_path d m mp r) = some m := by
  have hb := manifold_path_bundle d m mp r hd1 hd2 hm1 hm2 hp1 hp2 hr1 hr2
  have hstrip := pySplit_strip_suffix pickleExt (by decide) pickleExt_no_overlap r hr3
  refine ⟨?_, ?_, ?_⟩
  · simp [_meta_from_path, hb, hstrip]
  · simp [_dataset_from_path, hb]
  · simp [_metric_from_path, hb]

/-- Witness for the amended claim C3 at a concrete input. -/
theorem claim_C3_witness :
    (':' ∉ "cardio".data ∧ '/' ∉ "cardio".data ∧ ':' ∉ "cosine".data ∧
      '/' ∉ "cosine".data ∧ ':' ∉ "3".data ∧ '/' ∉ "3".data ∧
      ':' ∉ "100".data ∧ '/' ∉ "100".data ∧
      containsSub "100".data pickleExt = false) ∧
    (_meta_from_path (_manifold_path "cardio".data "cosine".data "3".data "100".data)
        = some ⟨"cardio".data, "cosine".data, "3".data, "100".data⟩ ∧
      _dataset_from_path (_manifold_path "cardio".data "cosine".data "3".data "100".data)
        = "cardio".data ∧
      _metric_from_path (_manifold_path "cardio".data "cosine".data "3".data "100".data)
        = some "cosine".data) :=
  ⟨by decide,
    claim_C3_amended _ _ _ _ (by decide) (by decide) (by decide) (by decide)
      (by decide) (by decide) (by decide) (by decide) (by decide)⟩

/-- Counterexample to claim C3 as stated: `graph_ratio = ":"` satisfies
every hypothesis of the claim (dataset and metric are clean, and the string
form of graph_ratio contains no `'.pickle'`), yet the parsed graph_ratio
comes back as `""`, not `":"`. -/
theorem claim_C3_counterexample :
    (':' ∉ "d".data ∧ '/' ∉ "d".data ∧ ':' ∉ "m".data ∧ '/' ∉ "m".data ∧
      containsSub ":".data pickleExt = false) ∧
    _meta_from_path (_manifold_path "d".data "m".data "3".data ":".data)
      = some ⟨"d".data, "m".data, "3".data, "".data⟩ ∧
    _meta_from_path (_manifold_path "d".data "m".data "3".data ":".data)
      ≠ some ⟨"d".data, "m".data, "3".data, ":".data⟩ := by
  decide

/-- Claim C7, corrected: provided the dataset does not begin with a path
separator (otherwise `os.path.join` discards the build directory, see the
counterexample), the manifold cache path is
`<dataset>:<metric>:<min_points>:<graph_ratio>.pickle` directly under
`BUILD_DIR`, and the SVM model cache path is `svm/<dataset>:<metric>`
under `BUILD_DIR`. -/
theorem claim_C7_amended (d m mp r : Str) (hd : d.head? ≠ some '/') :
    _manifold_path d m mp r =
      BUILD_DIR ++ '/' :: (d ++ ':' :: (m ++ ':' :: (mp ++ ':' :: (r ++ pickleExt)))) ∧
    svmModelPath d m = BUILD_DIR ++ '/' :: ("svm".data ++ '/' :: (d ++ ':' :: m)) :=
  ⟨_manifold_path_eq d m mp r hd, svmModelPath_eq d m hd⟩

/-- Witness for the amended claim C7 at a concrete input. -/
theorem claim_C7_witness :
    (("cardio".data : Str).head? ≠ some '/') ∧
    (_manifold_path "cardio".data "cosine".data "3".data "100".data =
        BUILD_DIR ++ '/' :: ("cardio".data ++ ':' :: ("cosine".data ++ ':' ::
          ("3".data ++ ':' :: ("100".data ++ pickleExt)))) ∧
      svmModelPath "cardio".data "cosine".data =
        BUILD_DIR ++ '/' :: ("svm".data ++ '/' :: ("cardio".data ++ ':' :: "cosine".data))) :=
  ⟨by decide, claim_C7_amended _ _ _ _ (by decide)⟩

/-- Counterexample to claim C7 as stated: for a dataset beginning with the
path separator, `os.path.join` treats the filename as absolute and the
resulting paths do not live under the build directory. -/
theorem claim_C7_counterexample :
    _manifold_path "/x".data "m".data "3".data "100".data = "/x:m:3:100.pickle".data ∧
    _manifold_path "/x".data "m".data "3".data "100".data ≠
      BUILD_DIR ++ '/' :: ("/x".data ++ ':' :: ("m".data ++ ':' ::
        ("3".data ++ ':' :: ("100".data ++ pickleExt)))) ∧
    svmModelPath "/x".data "m".data = "/x:m".data ∧
    svmModelPath "/x".data "m".data ≠
      BUILD_DIR ++ '/' :: ("svm".data ++ '/' :: ("/x".data ++ ':' :: "m".data)) := by
  decide

/-- Claim C6: the `plot-data` and `animate` commands always raise
`NotImplementedError` before doing any other work: their embeddings are the
error value for every input. -/
theorem claim_C6 :
    plot_data = Except.error PyError.notImplementedError ∧
    ∀ (dataset metric : Str),
      animate dataset metric = Except.error PyError.notImplementedError :=
  ⟨rfl, fun _ _ => rfl⟩

/-- Claim C8, corrected: for every `State` and every attribute name other
than the three assigned in `__init__` AND not resolved on the class by
normal attribute lookup (the class's own members, its docstring, and the
attributes inherited from `object`), reading the attribute returns `None`
(via `State.__getattr__`) rather than raising `AttributeError`.  (For
class-level names such as `__init__` normal lookup succeeds and returns
the class attribute, not `None` — see the counterexample.) -/
theorem claim_C8 (st : State) (name : Str)
    (h1 : name ≠ "dataset".data) (h2 : name ≠ "metric".data)
    (h3 : name ≠ "manifold".data) (h4 : name ∉ stateClassAttrNames) :
    st.getattr name = PyVal.none := by
  unfold State.getattr
  rw [if_neg h1, if_neg h2, if_neg h3, if_neg h4]

/-- Witness for the corrected claim C8: the misspelt name `datset`
actually read by the `test` and `plot-results` commands is found neither
on the instance nor on the class, so it resolves to `None`. -/
theorem claim_C8_witness :
    ("datset".data ≠ "dataset".data ∧ "datset".data ≠ "metric".data ∧
      "datset".data ≠ "manifold".data ∧ "datset".data ∉ stateClassAttrNames) ∧
    State.getattr ⟨some "cardio".data, some "cosine".data, Option.none⟩ "datset".data
      = PyVal.none :=
  ⟨by decide, claim_C8 _ _ (by decide) (by decide) (by decide) (by decide)⟩

/-- Counterexample to claim C8 as stated: `__init__` is distinct from the
three instance attributes, yet reading it succeeds via normal class
lookup and yields the bound method — not `None`. -/
theorem claim_C8_counterexample :
    ("__init__".data ≠ "dataset".data ∧ "__init__".data ≠ "metric".data ∧
      "__init__".data ≠ "manifold".data) ∧
    State.getattr ⟨Option.none, Option.none, Option.none⟩ "__init__".data
      = PyVal.classAttr ∧
    State.getattr ⟨Option.none, Option.none, Option.none⟩ "__init__".data
      ≠ PyVal.none := by
  decide

/-- Claim C2 names a code bug: lines 129 and 169 read `state.datset` (a
misspelling of `dataset`), which `State.__getattr__` silently turns into
`None`, so the dataset field of the glob pattern is always `'*'` no matter
which dataset was chosen.  At the failing input (dataset `cardio` chosen,
no metric, no manifold) the pattern equals the fully unrestricted pattern
and differs from the dataset-restricted pattern the claim describes; the
metric field, which is spelt correctly, does restrict the pattern. -/
theorem claim_C2_bug :
    cachedManifoldGlobPattern ⟨some "cardio".data, Option.none, Option.none⟩
        "*".data "*".data
      = _manifold_path "*".data "*".data "*".data "*".data ∧
    cachedManifoldGlobPattern ⟨some "cardio".data, Option.none, Option.none⟩
        "*".data "*".data
      = cachedManifoldGlobPattern ⟨Option.none, Option.none, Option.none⟩ "*".data "*".data ∧
    cachedManifoldGlobPattern ⟨some "cardio".data, Option.none, Option.none⟩
        "*".data "*".data
      ≠ _manifold_path "cardio".data "*".data "*".data "*".data ∧
    cachedManifoldGlobPattern ⟨Option.none, some "cosine".data, Option.none⟩
        "*".data "*".data
      = _manifold_path "*".data "cosine".data "*".data "*".data := by
  decide

/-! ## Lemmas about the `build` command -/

theorem effMinPoints_idem (n : Nat) (mp : Int) :
    effMinPoints n (effMinPoints n mp) = effMinPoints n mp := by
  unfold effMinPoints
  by_cases h : n > 10000
  · simp only [if_pos h]
    rw [← max_assoc, max_self]
  · simp [h]

theorem buildMetricLoop_ok (dataset : Str) (n : Nat) (existsOn : Str → Bool)
    (maxDepth graphRatio : Int) :
    ∀ (ms : List Str) (mp : Int), (∀ m' ∈ ms, (lookupMetric m').isSome) →
      (buildMetricLoop dataset n existsOn maxDepth graphRatio ms mp).2.2 = true := by
  intro ms
  induction ms with
  | nil => intro mp _; rfl
  | cons m0 rest ih =>
    intro mp hlook
    obtain ⟨mv0, hmv0⟩ := Option.isSome_iff_exists.mp (hlook m0 (List.mem_cons_self m0 rest))
    simp only [buildMetricLoop, hmv0]
    exact ih _ (fun m' hm' => hlook m' (List.mem_cons_of_mem m0 hm'))

theorem buildMetricLoop_carry (dataset : Str) (n : Nat) (existsOn : Str → Bool)
    (maxDepth graphRatio : Int) :
    ∀ (ms : List Str) (mp : Int), ms ≠ [] → (∀ m' ∈ ms, (lookupMetric m').isSome) →
      (buildMetricLoop dataset n existsOn maxDepth graphRatio ms mp).2.1
        = effMinPoints n mp := by
  intro ms
  induction ms with
  | nil => intro mp h _; exact absurd rfl h
  | cons m0 rest ih =>
    intro mp _ hlook
    obtain ⟨mv0, hmv0⟩ := Option.isSome_iff_exists.mp (hlook m0 (List.mem_cons_self m0 rest))
    simp only [buildMetricLoop, hmv0]
    cases rest with
    | nil => rfl
    | cons m1 rest' =>
      rw [ih _ (by simp) (fun m' hm' => hlook m' (List.mem_cons_of_mem m0 hm')),
        effMinPoints_idem]

theorem buildMetricLoop_sub (dataset : Str) (n : Nat) (existsOn : Str → Bool)
    (maxDepth graphRatio : Int) :
    ∀ (ms : List Str) (mp : Int), (∀ m' ∈ ms, (lookupMetric m').isSome) →
      ∀ m ∈ ms, ∃ mv u v, lookupMetric m = some mv ∧
        (buildMetricLoop dataset n existsOn maxDepth graphRatio ms mp).1 =
          u ++ buildIterEvents dataset m mv maxDepth (effMinPoints n mp) graphRatio existsOn
            ++ v := by
  intro ms
  induction ms with
  | nil => intro mp _ m hm; exact absurd hm (List.not_mem_nil m)
  | cons m0 rest ih =>
    intro mp hlook m hm
    obtain ⟨mv0, hmv0⟩ := Option.isSome_iff_exists.mp (hlook m0 (List.mem_cons_self m0 rest))
    rcases List.mem_cons.mp hm with hm0 | hmr
    · subst hm0
      exact ⟨mv0, [],
        (buildMetricLoop dataset n existsOn maxDepth graphRatio rest
          (effMinPoints n mp)).1,
        hmv0, by simp [buildMetricLoop, hmv0]⟩
    · obtain ⟨mv, u', v', hlk, htr⟩ :=
        ih (effMinPoints n mp) (fun m' hm' => hlook m' (List.mem_cons_of_mem m0 hm')) m hmr
      rw [effMinPoints_idem] at htr
      refine ⟨mv,
        buildIterEvents dataset m0 mv0 maxDepth (effMinPoints n mp) graphRatio existsOn ++ u',
        v', hlk, ?_⟩
      simp only [buildMetricLoop, hmv0]
      rw [htr]
      simp

theorem effMinPoints_closed (n : Nat) (mp : Int) :
    effMinPoints n mp = if n ≤ 10000 then 3 else max 3 mp := by
  unfold effMinPoints
  by_cases h : n ≤ 10000
  · rw [if_neg (by omega), if_pos h]
  · rw [if_pos (by omega), if_neg h]

theorem buildDatasetLoop_ok (metrics : List Str) (sizeOf : Str → Nat)
    (existsOn : Str → Bool) (maxDepth graphRatio : Int)
    (hlook : ∀ m' ∈ metrics, (lookupMetric m').isSome) :
    ∀ (ds : List Str) (mp : Int),
      (buildDatasetLoop metrics sizeOf existsOn maxDepth graphRatio ds mp).2.2 = true := by
  intro ds
  induction ds with
  | nil => intro mp; rfl
  | cons d rest ih =>
    intro mp
    simp only [buildDatasetLoop,
      buildMetricLoop_ok d (sizeOf d) existsOn maxDepth graphRatio metrics mp hlook,
      if_true]
    exact ih _

theorem minPointsClosed_step (nd nj : Nat) (b : Bool) (mp : Int) :
    (if nj ≤ 10000 then 3
     else if b = true then max 3 (if nd ≤ 10000 then 3 else max 3 mp) else 3) =
    (if nj ≤ 10000 then (3 : Int)
     else if (decide (10000 < nd) && b) = true then max 3 mp else 3) := by
  by_cases h1 : nj ≤ 10000
  · rw [if_pos h1, if_pos h1]
  · rw [if_neg h1, if_neg h1]
    by_cases h2 : nd ≤ 10000
    · have hb : decide (10000 < nd) = false := by simpa using h2
      cases b <;> simp [h2, hb, max_self]
    · have hb : decide (10000 < nd) = true := by simpa using Nat.lt_of_not_le h2
      cases b <;> simp [h2, hb, ← max_assoc, max_self]

theorem buildDatasetLoop_sub (metrics : List Str) (sizeOf : Str → Nat)
    (existsOn : Str → Bool) (maxDepth graphRatio : Int)
    (hne : metrics ≠ []) (hlook : ∀ m' ∈ metrics, (lookupMetric m').isSome) :
    ∀ (ds : List Str) (mp : Int) (i : Fin ds.length) (m : Str), m ∈ metrics →
      ∃ mv u v, lookupMetric m = some mv ∧
        (buildDatasetLoop metrics sizeOf existsOn maxDepth graphRatio ds mp).1 =
          u ++ buildIterEvents (ds.get i) m mv maxDepth
            (if sizeOf (ds.get i) ≤ 10000 then 3
             else if (ds.take i.1).all (fun d' => decide (10000 < sizeOf d')) then
               max 3 mp else 3)
            graphRatio existsOn ++ v := by
  intro ds
  induction ds with
  | nil => intro mp i; exact absurd i.2 (by simp)
  | cons d rest ih =>
    intro mp i m hm
    have hok := buildMetricLoop_ok d (sizeOf d) existsOn maxDepth graphRatio metrics mp hlook
    rcases i with ⟨i, hi⟩
    cases i with
    | zero =>
      obtain ⟨mv, u', v', hlk, htr⟩ :=
        buildMetricLoop_sub d (sizeOf d) existsOn maxDepth graphRatio metrics mp hlook m hm
      refine ⟨mv, BEvent.getData d :: BEvent.readData d :: u',
        v' ++ (buildDatasetLoop metrics sizeOf existsOn maxDepth graphRatio rest
          (buildMetricLoop d (sizeOf d) existsOn maxDepth graphRatio metrics mp).2.1).1,
        hlk, ?_⟩
      simp only [buildDatasetLoop, hok, if_true]
      rw [htr]
      have hv : effMinPoints (sizeOf d) mp =
          (if sizeOf ((d :: rest).get ⟨0, hi⟩) ≤ 10000 then 3
           else if ((d :: rest).take 0).all (fun d' => decide (10000 < sizeOf d')) then
             max 3 mp else 3) := by
        simp [effMinPoints_closed]
      rw [← hv]
      simp
    | succ j =>
      have hj : j < rest.length := by simpa using hi
      have hcarry := buildMetricLoop_carry d (sizeOf d) existsOn maxDepth graphRatio
        metrics mp hne hlook
      obtain ⟨mv, u', v', hlk, htr⟩ :=
        ih (effMinPoints (sizeOf d) mp) ⟨j, hj⟩ m hm
      refine ⟨mv, BEvent.getData d :: BEvent.readData d ::
        ((buildMetricLoop d (sizeOf d) existsOn maxDepth graphRatio metrics mp).1 ++ u'),
        v', hlk, ?_⟩
      simp only [buildDatasetLoop, hok, if_true]
      rw [hcarry, htr]
      have hv : (if sizeOf (rest.get ⟨j, hj⟩) ≤ 10000 then 3
            else if (rest.take j).all (fun d' => decide (10000 < sizeOf d')) then
              max 3 (effMinPoints (sizeOf d) mp) else 3) =
          (if sizeOf ((d :: rest).get ⟨j + 1, hi⟩) ≤ 10000 then 3
           else if ((d :: rest).take (j + 1)).all (fun d' => decide (10000 < sizeOf d')) then
             max 3 mp else 3) := by
        rw [effMinPoints_closed,
          show (d :: rest).get ⟨j + 1, hi⟩ = rest.get ⟨j, hj⟩ from rfl,
          List.take_succ_cons, List.all_cons]
        exact minPointsClosed_step (sizeOf d) (sizeOf (rest.get ⟨j, hj⟩))
          ((rest.take j).all fun d' => decide (10000 < sizeOf d')) mp
      rw [hv]
      simp

theorem metricsList_ne_nil (sm : Option Str) : singletonOrKeys sm METRICS_keys ≠ [] := by
  unfold singletonOrKeys
  by_cases h : pyTruthy sm = true
  · simp [h]
  · simp only [h]
    simp
    decide

/-- Claim C4: for every dataset and metric the `build` command processes
(under valid metric choices, which `click.Choice(METRICS.keys())`
guarantees), the command performs, as one contiguous block of its trace:
construct the manifold object, then — if a pickle exists at the convention
path — load the manifold from that file, rebuild the tree and graphs, dump
back to the same path and store the manifold in the state; otherwise build
the manifold from scratch, dump it to that path and store it in the state
(see `buildIterEvents`); and the command runs to completion. -/
theorem claim_C4 (st : State) (registry : List Str) (sizeOf : Str → Nat)
    (existsOn : Str → Bool) (maxDepth minPoints graphRatio : Int) (d m : Str)
    (hd : d ∈ singletonOrKeys st.dataset registry)
    (hm : m ∈ singletonOrKeys st.metric METRICS_keys)
    (hlook : ∀ m' ∈ singletonOrKeys st.metric METRICS_keys, (lookupMetric m').isSome) :
    ∃ mv mp u v, lookupMetric m = some mv ∧
      (build st registry sizeOf existsOn maxDepth minPoints graphRatio).1 =
        u ++ buildIterEvents d m mv maxDepth mp graphRatio existsOn ++ v ∧
      (build st registry sizeOf existsOn maxDepth minPoints graphRatio).2 = true := by
  obtain ⟨i, hi⟩ := List.mem_iff_get.mp hd
  obtain ⟨mv, u, v, hlk, htr⟩ :=
    buildDatasetLoop_sub (singletonOrKeys st.metric METRICS_keys) sizeOf existsOn
      maxDepth graphRatio (metricsList_ne_nil st.metric) hlook
      (singletonOrKeys st.dataset registry) minPoints i m hm
  rw [hi] at htr
  exact ⟨mv, _, u, v, hlk, htr,
    buildDatasetLoop_ok _ sizeOf existsOn maxDepth graphRatio hlook _ minPoints⟩

/-- Witness for claim C4 at a concrete input (cache miss for a small
dataset with one chosen dataset and metric). -/
theorem claim_C4_witness :
    ("cardio".data ∈ singletonOrKeys (some "cardio".data) [] ∧
      "cosine".data ∈ singletonOrKeys (some "cosine".data) METRICS_keys ∧
      ∀ m' ∈ singletonOrKeys (some "cosine".data) METRICS_keys,
        (lookupMetric m').isSome) ∧
    ∃ mv mp u v, lookupMetric "cosine".data = some mv ∧
      (build ⟨some "cardio".data, some "cosine".data, Option.none⟩ []
          (fun _ => 500) (fun _ => false) 100 3 100).1 =
        u ++ buildIterEvents "cardio".data "cosine".data mv 100 mp 100 (fun _ => false)
          ++ v ∧
      (build ⟨some "cardio".data, some "cosine".data, Option.none⟩ []
          (fun _ => 500) (fun _ => false) 100 3 100).2 = true :=
  ⟨⟨by decide, by decide, by decide⟩,
    claim_C4 ⟨some "cardio".data, some "cosine".data, Option.none⟩ [] (fun _ => 500)
      (fun _ => false) 100 3 100 "cardio".data "cosine".data
      (by decide) (by decide) (by decide)⟩

/-- Claim C9, corrected.  The effective `min_points` used (for the tree
criterion and the cache filename) for the dataset at position `i` of the
processed list is: 3 when that dataset has at most 10,000 rows; and, when
it has more, `max 3 min_points` only if every earlier-processed dataset
also had more than 10,000 rows, and 3 otherwise — the line-97 reassignment
of the `min_points` local leaks across loop iterations, so after one small
dataset the `--min-points` option is lost for the whole run (see the
counterexample).  Consequently the effective value is always at least 3,
and `--min-points` has no effect on datasets of at most 10,000 points. -/
theorem claim_C9_amended (st : State) (registry : List Str) (sizeOf : Str → Nat)
    (existsOn : Str → Bool) (maxDepth minPoints graphRatio : Int)
    (i : Fin (singletonOrKeys st.dataset registry).length) (m : Str)
    (hm : m ∈ singletonOrKeys st.metric METRICS_keys)
    (hlook : ∀ m' ∈ singletonOrKeys st.metric METRICS_keys, (lookupMetric m').isSome) :
    3 ≤ (if sizeOf ((singletonOrKeys st.dataset registry).get i) ≤ 10000 then (3 : Int)
         else if ((singletonOrKeys st.dataset registry).take i.1).all
             (fun d' => decide (10000 < sizeOf d')) then max 3 minPoints else 3) ∧
    ∃ mv u v, lookupMetric m = some mv ∧
      (build st registry sizeOf existsOn maxDepth minPoints graphRatio).1 =
        u ++ buildIterEvents ((singletonOrKeys st.dataset registry).get i) m mv maxDepth
          (if sizeOf ((singletonOrKeys st.dataset registry).get i) ≤ 10000 then 3
           else if ((singletonOrKeys st.dataset registry).take i.1).all
               (fun d' => decide (10000 < sizeOf d')) then max 3 minPoints else 3)
          graphRatio existsOn ++ v := by
  constructor
  · by_cases h1 : sizeOf ((singletonOrKeys st.dataset registry).get i) ≤ 10000
    · rw [if_pos h1]
    · rw [if_neg h1]
      by_cases h2 : ((singletonOrKeys st.dataset registry).take i.1).all
          (fun d' => decide (10000 < sizeOf d')) = true
      · rw [if_pos h2]; exact le_max_left 3 minPoints
      · rw [if_neg h2]
  · exact buildDatasetLoop_sub (singletonOrKeys st.metric METRICS_keys) sizeOf existsOn
      maxDepth graphRatio (metricsList_ne_nil st.metric) hlook
      (singletonOrKeys st.dataset registry) minPoints i m hm

/-- Witness for the corrected claim C9 at a concrete input: two datasets,
a small one first, then a large one (which therefore gets min_points 3
despite `--min-points 5`). -/
theorem claim_C9_witness :
    ("cosine".data ∈ singletonOrKeys (some "cosine".data) METRICS_keys ∧
      ∀ m' ∈ singletonOrKeys (some "cosine".data) METRICS_keys,
        (lookupMetric m').isSome) ∧
    (3 ≤ (if (fun s => if s = "a".data then 100 else 20000)
            ((singletonOrKeys Option.none ["a".data, "b".data]).get ⟨1, by decide⟩) ≤ 10000
          then (3 : Int)
          else if ((singletonOrKeys Option.none ["a".data, "b".data]).take 1).all
              (fun d' => decide (10000 < (fun s => if s = "a".data then 100 else 20000) d'))
            then max 3 5 else 3) ∧
      ∃ mv u v, lookupMetric "cosine".data = some mv ∧
        (build ⟨Option.none, some "cosine".data, Option.none⟩ ["a".data, "b".data]
            (fun s => if s = "a".data then 100 else 20000) (fun _ => false) 50 5 100).1 =
          u ++ buildIterEvents
            ((singletonOrKeys Option.none ["a".data, "b".data]).get ⟨1, by decide⟩)
            "cosine".data mv 50
            (if (fun s => if s = "a".data then 100 else 20000)
                ((singletonOrKeys Option.none ["a".data, "b".data]).get ⟨1, by decide⟩)
                ≤ 10000 then 3
             else if ((singletonOrKeys Option.none ["a".data, "b".data]).take 1).all
                 (fun d' => decide (10000 < (fun s => if s = "a".data then 100 else 20000) d'))
               then max 3 5 else 3)
            100 (fun _ => false) ++ v) :=
  ⟨⟨by decide, by decide⟩,
    claim_C9_amended ⟨Option.none, some "cosine".data, Option.none⟩
      ["a".data, "b".data] (fun s => if s = "a".data then 100 else 20000)
      (fun _ => false) 50 5 100 ⟨1, by decide⟩ "cosine".data (by decide) (by decide)⟩

/-- Counterexample to claim C9 as stated: with datasets `a` (100 rows) then
`b` (20,000 rows), metric `cosine`, an empty cache and `--min-points 5`,
the iteration for `b` (which has more than 10,000 rows) builds and dumps
with min_points 3 — not `max(3, 5) = 5` as the claim requires — because
the reassignment during `a`'s iteration overwrote the option value. -/
theorem claim_C9_counterexample :
    BEvent.dumpManifold (_manifold_path "b".data "cosine".data "3".data "100".data)
        ∈ (build ⟨Option.none, some "cosine".data, Option.none⟩ ["a".data, "b".data]
            (fun s => if s = "a".data then 100 else 20000) (fun _ => false) 50 5 100).1 ∧
    BEvent.buildFull 50 (max 3 5)
        ∉ (build ⟨Option.none, some "cosine".data, Option.none⟩ ["a".data, "b".data]
            (fun s => if s = "a".data then 100 else 20000) (fun _ => false) 50 5 100).1 ∧
    BEvent.dumpManifold
        (_manifold_path "b".data "cosine".data (intToStr (max 3 5)) "100".data)
        ∉ (build ⟨Option.none, some "cosine".data, Option.none⟩ ["a".data, "b".data]
            (fun s => if s = "a".data then 100 else 20000) (fun _ => false) 50 5 100).1 := by
  decide

/-! ## Lemmas about `runSeq` and the `test` command -/

theorem runSeq_ok (f : α → List ε × Bool) :
    ∀ (xs : List α), (∀ x ∈ xs, (f x).2 = true) → (runSeq f xs).2 = true := by
  intro xs
  induction xs with
  | nil => intro _; rfl
  | cons x rest ih =>
    intro hall
    have hx := hall x (List.mem_cons_self x rest)
    simp only [runSeq, hx, if_true]
    exact ih (fun y hy => hall y (List.mem_cons_of_mem x hy))

theorem runSeq_events (f : α → List ε × Bool) :
    ∀ (xs : List α), (∀ x ∈ xs, (f x).2 = true) →
      ∀ x ∈ xs, ∀ e ∈ (f x).1, e ∈ (runSeq f xs).1 := by
  intro xs
  induction xs with
  | nil => intro _ x hx; exact absurd hx (List.not_mem_nil x)
  | cons y rest ih =>
    intro hall x hx e he
    have hy := hall y (List.mem_cons_self y rest)
    simp only [runSeq, hy, if_true]
    rcases List.mem_cons.mp hx with hxy | hxr
    · subst hxy
      exact List.mem_append_left _ he
    · exact List.mem_append_right _
        (ih (fun z hz => hall z (List.mem_cons_of_mem y hz)) x hxr e he)

theorem runSeq_mem_src (f : α → List ε × Bool) :
    ∀ (xs : List α), ∀ e ∈ (runSeq f xs).1, ∃ x ∈ xs, e ∈ (f x).1 := by
  intro xs
  induction xs with
  | nil => intro e he; exact absurd he (List.not_mem_nil e)
  | cons y rest ih =>
    intro e he
    simp only [runSeq] at he
    by_cases hy : (f y).2 = true
    · rw [if_pos hy] at he
      rcases List.mem_append.mp he with h1 | h2
      · exact ⟨y, List.mem_cons_self y rest, h1⟩
      · obtain ⟨x, hx, hex⟩ := ih e h2
        exact ⟨x, List.mem_cons_of_mem y hx, hex⟩
    · rw [if_neg hy] at he
      exact ⟨y, List.mem_cons_self y rest, he⟩

theorem testIter_ok (maxD : Nat) (mR sR : Str → Nat → Bool) (m : Str) (d : Nat)
    (hmr : mR m d = false) : (testIter maxD mR sR m d).2 = true := by
  unfold testIter
  split_ifs <;> simp_all

theorem testIter_call_mem (maxD : Nat) (mR sR : Str → Nat → Bool) (m : Str) (d : Nat)
    (hmr : mR m d = false) (hns : ¬((m = npbName ∨ m = knName) ∧ d < maxD)) :
    TEvent.callMethod m d ∈ (testIter maxD mR sR m d).1 ∧
    (sR m d = true → TEvent.logException m d ∈ (testIter maxD mR sR m d).1) ∧
    (sR m d = false → TEvent.logScore m d ∈ (testIter maxD mR sR m d).1) := by
  unfold testIter
  rw [if_neg hns, if_neg (by simp [hmr])]
  by_cases hs : sR m d = true
  · rw [if_pos hs]
    exact ⟨by simp, fun _ => by simp, fun hf => absurd hs (by simp [hf])⟩
  · rw [if_neg hs]
    exact ⟨by simp, fun ht => absurd ht hs, fun _ => by simp⟩

theorem testIter_call_src {maxD : Nat} {mR sR : Str → Nat → Bool} {m' : Str} {d' : Nat}
    {m : Str} {d : Nat} (h : TEvent.callMethod m d ∈ (testIter maxD mR sR m' d').1) :
    m' = m ∧ d' = d ∧ ¬((m' = npbName ∨ m' = knName) ∧ d' < maxD) := by
  unfold testIter at h
  split_ifs at h with h1 h2 h3
  · simp at h
  · simp only [List.mem_singleton, TEvent.callMethod.injEq] at h
    exact ⟨h.1.symm, h.2.symm, h1⟩
  · simp only [List.mem_cons, List.not_mem_nil, or_false, TEvent.callMethod.injEq] at h
    rcases h with ⟨he1, he2⟩ | h
    · exact ⟨he1.symm, he2.symm, h1⟩
    · simp at h
  · simp only [List.mem_cons, List.not_mem_nil, or_false, TEvent.callMethod.injEq] at h
    rcases h with ⟨he1, he2⟩ | h
    · exact ⟨he1.symm, he2.symm, h1⟩
    · simp at h

theorem testSweep_ok (maxD : Nat) (mR sR : Str → Nat → Bool) (methods : List Str)
    (hmr : ∀ m' d', mR m' d' = false) :
    (testSweep maxD mR sR methods).2 = true :=
  runSeq_ok _ _ (fun m _ =>
    runSeq_ok _ _ (fun d _ => testIter_ok maxD mR sR m d (hmr m d)))

theorem testSweep_mem (maxD : Nat) (mR sR : Str → Nat → Bool) (methods : List Str)
    (hmr : ∀ m' d', mR m' d' = false) (m : Str) (hm : m ∈ methods) (d : Nat)
    (hd : d ≤ maxD) (hns : ¬((m = npbName ∨ m = knName) ∧ d < maxD)) :
    TEvent.callMethod m d ∈ (testSweep maxD mR sR methods).1 ∧
    (sR m d = true → TEvent.logException m d ∈ (testSweep maxD mR sR methods).1) ∧
    (sR m d = false → TEvent.logScore m d ∈ (testSweep maxD mR sR methods).1) := by
  have hdr : d ∈ List.range (maxD + 1) := List.mem_range.mpr (by omega)
  have hiter := testIter_call_mem maxD mR sR m d (hmr m d) hns
  have hok_inner : ∀ m', ∀ d' ∈ List.range (maxD + 1),
      (testIter maxD mR sR m' d').2 = true :=
    fun m' d' _ => testIter_ok maxD mR sR m' d' (hmr m' d')
  have hok_outer : ∀ m' ∈ methods,
      (runSeq (testIter maxD mR sR m') (List.range (maxD + 1))).2 = true :=
    fun m' _ => runSeq_ok _ _ (hok_inner m')
  refine ⟨?_, fun hs => ?_, fun hs => ?_⟩
  · exact runSeq_events _ _ hok_outer m hm _
      (runSeq_events _ _ (hok_inner m) d hdr _ hiter.1)
  · exact runSeq_events _ _ hok_outer m hm _
      (runSeq_events _ _ (hok_inner m) d hdr _ (hiter.2.1 hs))
  · exact runSeq_events _ _ hok_outer m hm _
      (runSeq_events _ _ (hok_inner m) d hdr _ (hiter.2.2 hs))

theorem testSweep_call_src {maxD : Nat} {mR sR : Str → Nat → Bool} {methods : List Str}
    {m : Str} {d : Nat}
    (h : TEvent.callMethod m d ∈ (testSweep maxD mR sR methods).1) :
    m ∈ methods ∧ d ≤ maxD ∧ ¬((m = npbName ∨ m = knName) ∧ d < maxD) := by
  obtain ⟨m', hm', h2⟩ := runSeq_mem_src _ _ _ h
  obtain ⟨d', hd', h3⟩ := runSeq_mem_src _ _ _ h2
  obtain ⟨he1, he2, hns⟩ := testIter_call_src h3
  subst he1
  subst he2
  exact ⟨hm', by simpa using Nat.lt_succ_iff.mp (List.mem_range.mp hd'), hns⟩

theorem testManifold_eq (stDataset : Option Str) (methods : List Str)
    (loadDepth : Str → Nat) (mR sR : Str → Nat → Bool) (ref : MRef)
    (hobj : ∀ o, ref = MRef.obj o → pyTruthy stDataset = true) :
    ∃ pre, (testManifold stDataset methods loadDepth mR sR ref).1 =
        pre ++ (testSweep (refDepth loadDepth ref) mR sR methods).1 ∧
      (∀ m d, TEvent.callMethod m d ∉ pre) ∧
      (testManifold stDataset methods loadDepth mR sR ref).2 =
        (testSweep (refDepth loadDepth ref) mR sR methods).2 := by
  cases ref with
  | path p =>
    refine ⟨[if pyTruthy stDataset then TEvent.readData (stDataset.getD []) true
        else TEvent.readData (_dataset_from_path p) false, TEvent.loadManifold p],
      rfl, ?_, rfl⟩
    intro m d
    by_cases h : pyTruthy stDataset = true <;> simp [h]
  | obj o =>
    have ht := hobj o rfl
    refine ⟨[TEvent.readData (stDataset.getD []) true], ?_, by simp, ?_⟩
    · simp only [testManifold, ht, if_true]
      rfl
    · simp only [testManifold, ht, if_true]
      rfl

theorem test_sub (st : State) (methodOpt : Option Str) (min_points graph_ratio : Str)
    (methodsRegistry : List Str) (globOn : Str → List Str) (loadDepth : Str → Nat)
    (mR sR : Str → Nat → Bool)
    (hmr : ∀ m' d', mR m' d' = false)
    (hobj : ∀ o, MRef.obj o ∈ selectManifolds st min_points graph_ratio globOn →
      pyTruthy st.dataset = true)
    (ref : MRef) (href : ref ∈ selectManifolds st min_points graph_ratio globOn) :
    (test st methodOpt min_points graph_ratio methodsRegistry globOn loadDepth mR sR).2
      = true ∧
    ∀ e ∈ (testSweep (refDepth loadDepth ref) mR sR
        (singletonOrKeys methodOpt methodsRegistry)).1,
      e ∈ (test st methodOpt min_points graph_ratio methodsRegistry globOn loadDepth
        mR sR).1 := by
  have hall : ∀ r ∈ selectManifolds st min_points graph_ratio globOn,
      (testManifold st.dataset (singletonOrKeys methodOpt methodsRegistry) loadDepth
        mR sR r).2 = true := by
    intro r hr
    obtain ⟨pre, heq, hnc, hok⟩ := testManifold_eq st.dataset _ loadDepth mR sR r
      (fun o ho => hobj o (ho ▸ hr))
    rw [hok]
    exact testSweep_ok _ mR sR _ hmr
  constructor
  · exact runSeq_ok _ _ hall
  · intro e he
    obtain ⟨pre, heq, hnc, hok⟩ := testManifold_eq st.dataset _ loadDepth mR sR ref
      (fun o ho => hobj o (ho ▸ href))
    exact runSeq_events _ _ hall ref href e (by rw [heq]; exact List.mem_append_right _ he)

/-- Claim C1, corrected.  The `try` of lines 149-158 covers only the
scoring-and-logging statement, not the `METHODS[method](manifold.graphs[depth])`
call of line 148, which sits immediately before it.  An exception raised
while scoring/logging the results (`sRaises`, e.g. from `roc_auc_score`) is
caught and logged per-iteration, and the sweep continues across all
remaining depths, methods and manifolds with the command completing; an
exception raised by the scoring-method call itself is not caught and
aborts the whole command (see the counterexample). -/
theorem claim_C1_amended (st : State) (methodOpt : Option Str)
    (min_points graph_ratio : Str) (methodsRegistry : List Str)
    (globOn : Str → List Str) (loadDepth : Str → Nat) (mR sR : Str → Nat → Bool)
    (hmr : ∀ m' d', mR m' d' = false)
    (hobj : ∀ o, MRef.obj o ∈ selectManifolds st min_points graph_ratio globOn →
      pyTruthy st.dataset = true)
    (ref : MRef) (href : ref ∈ selectManifolds st min_points graph_ratio globOn)
    (m : Str) (hm : m ∈ singletonOrKeys methodOpt methodsRegistry)
    (d : Nat) (hd : d ≤ refDepth loadDepth ref)
    (hns : ¬((m = npbName ∨ m = knName) ∧ d < refDepth loadDepth ref)) :
    (test st methodOpt min_points graph_ratio methodsRegistry globOn loadDepth mR sR).2
      = true ∧
    TEvent.callMethod m d ∈
      (test st methodOpt min_points graph_ratio methodsRegistry globOn loadDepth
        mR sR).1 ∧
    (sR m d = true → TEvent.logException m d ∈
      (test st methodOpt min_points graph_ratio methodsRegistry globOn loadDepth
        mR sR).1) ∧
    (sR m d = false → TEvent.logScore m d ∈
      (test st methodOpt min_points graph_ratio methodsRegistry globOn loadDepth
        mR sR).1) := by
  obtain ⟨hok, hsub⟩ := test_sub st methodOpt min_points graph_ratio methodsRegistry
    globOn loadDepth mR sR hmr hobj ref href
  obtain ⟨h1, h2, h3⟩ := testSweep_mem (refDepth loadDepth ref) mR sR
    (singletonOrKeys methodOpt methodsRegistry) hmr m hm d hd hns
  exact ⟨hok, hsub _ h1, fun hs => hsub _ (h2 hs), fun hs => hsub _ (h3 hs)⟩

/-- Witness for the corrected claim C1: a run in which scoring raises at
every iteration still completes, with the exception logged. -/
theorem claim_C1_witness :
    (test ⟨some "cardio".data, Option.none, some ⟨1, "euclidean".data⟩⟩ Option.none
        "*".data "*".data ["cluster_cardinality".data] (fun _ => []) (fun _ => 0)
        (fun _ _ => false) (fun _ _ => true)).2 = true ∧
    TEvent.callMethod "cluster_cardinality".data 0 ∈
      (test ⟨some "cardio".data, Option.none, some ⟨1, "euclidean".data⟩⟩ Option.none
        "*".data "*".data ["cluster_cardinality".data] (fun _ => []) (fun _ => 0)
        (fun _ _ => false) (fun _ _ => true)).1 ∧
    TEvent.logException "cluster_cardinality".data 0 ∈
      (test ⟨some "cardio".data, Option.none, some ⟨1, "euclidean".data⟩⟩ Option.none
        "*".data "*".data ["cluster_cardinality".data] (fun _ => []) (fun _ => 0)
        (fun _ _ => false) (fun _ _ => true)).1 := by
  have h := claim_C1_amended ⟨some "cardio".data, Option.none, some ⟨1, "euclidean".data⟩⟩
    Option.none "*".data "*".data ["cluster_cardinality".data] (fun _ => [])
    (fun _ => 0) (fun _ _ => false) (fun _ _ => true)
    (fun _ _ => rfl) (fun o _ => rfl) (MRef.obj ⟨1, "euclidean".data⟩) (by decide)
    "cluster_cardinality".data (by decide) 0 (by decide) (by decide)
  exact ⟨h.1, h.2.1, h.2.2.1 rfl⟩

/-- Counterexample to claim C1 as stated: an exception raised by the
scoring-method call itself (line 148) is not caught: the command aborts
immediately, and the remaining methods are never run. -/
theorem claim_C1_counterexample :
    test ⟨some "cardio".data, Option.none, some ⟨0, "euclidean".data⟩⟩ Option.none
        "*".data "*".data ["cluster_cardinality".data, "subgraph_cardinality".data]
        (fun _ => []) (fun _ => 0)
        (fun m' _ => m' == "cluster_cardinality".data) (fun _ _ => false)
      = ([TEvent.readData "cardio".data true,
          TEvent.callMethod "cluster_cardinality".data 0], false) ∧
    TEvent.callMethod "subgraph_cardinality".data 0 ∉
      (test ⟨some "cardio".data, Option.none, some ⟨0, "euclidean".data⟩⟩ Option.none
        "*".data "*".data ["cluster_cardinality".data, "subgraph_cardinality".data]
        (fun _ => []) (fun _ => 0)
        (fun m' _ => m' == "cluster_cardinality".data) (fun _ _ => false)).1 := by
  decide

/-- Claim C5, corrected: for every manifold the `test` command processes
(under exception-free execution), every selected method other than
`n_points_in_ball` and `k_nearest` is invoked on the manifold's graph at
every depth from 0 to `manifold.depth` inclusive, and the resulting
anomaly values are scored against the ground-truth labels via ROC-AUC;
the two depth-invariant methods are invoked and scored only at depth
`manifold.depth` (they are skipped below it, see the counterexample). -/
theorem claim_C5_amended (st : State) (methodOpt : Option Str)
    (min_points graph_ratio : Str) (methodsRegistry : List Str)
    (globOn : Str → List Str) (loadDepth : Str → Nat) (mR sR : Str → Nat → Bool)
    (hmr : ∀ m' d', mR m' d' = false) (hsr : ∀ m' d', sR m' d' = false)
    (hobj : ∀ o, MRef.obj o ∈ selectManifolds st min_points graph_ratio globOn →
      pyTruthy st.dataset = true)
    (ref : MRef) (href : ref ∈ selectManifolds st min_points graph_ratio globOn)
    (m : Str) (hm : m ∈ singletonOrKeys methodOpt methodsRegistry) :
    (¬(m = npbName ∨ m = knName) →
      ∀ d : Nat, d ≤ refDepth loadDepth ref →
        TEvent.callMethod m d ∈
          (test st methodOpt min_points graph_ratio methodsRegistry globOn loadDepth
            mR sR).1 ∧
        TEvent.logScore m d ∈
          (test st methodOpt min_points graph_ratio methodsRegistry globOn loadDepth
            mR sR).1) ∧
    ((m = npbName ∨ m = knName) →
      TEvent.callMethod m (refDepth loadDepth ref) ∈
        (test st methodOpt min_points graph_ratio methodsRegistry globOn loadDepth
          mR sR).1 ∧
      TEvent.logScore m (refDepth loadDepth ref) ∈
        (test st methodOpt min_points graph_ratio methodsRegistry globOn loadDepth
          mR sR).1) := by
  obtain ⟨hok, hsub⟩ := test_sub st methodOpt min_points graph_ratio methodsRegistry
    globOn loadDepth mR sR hmr hobj ref href
  constructor
  · intro hnsp d hd
    obtain ⟨h1, _, h3⟩ := testSweep_mem (refDepth loadDepth ref) mR sR
      (singletonOrKeys methodOpt methodsRegistry) hmr m hm d hd
      (fun hc => hnsp hc.1)
    exact ⟨hsub _ h1, hsub _ (h3 (hsr m d))⟩
  · intro hsp
    obtain ⟨h1, _, h3⟩ := testSweep_mem (refDepth loadDepth ref) mR sR
      (singletonOrKeys methodOpt methodsRegistry) hmr m hm (refDepth loadDepth ref)
      (le_refl _) (fun hc => absurd hc.2 (lt_irrefl _))
    exact ⟨hsub _ h1, hsub _ (h3 (hsr m _))⟩

/-- Witness for the corrected claim C5 at a concrete input. -/
theorem claim_C5_witness :
    (TEvent.callMethod "cluster_cardinality".data 0 ∈
      (test ⟨some "cardio".data, Option.none, some ⟨1, "euclidean".data⟩⟩ Option.none
        "*".data "*".data ["cluster_cardinality".data, npbName] (fun _ => [])
        (fun _ => 0) (fun _ _ => false) (fun _ _ => false)).1 ∧
     TEvent.logScore "cluster_cardinality".data 1 ∈
      (test ⟨some "cardio".data, Option.none, some ⟨1, "euclidean".data⟩⟩ Option.none
        "*".data "*".data ["cluster_cardinality".data, npbName] (fun _ => [])
        (fun _ => 0) (fun _ _ => false) (fun _ _ => false)).1) ∧
    (TEvent.callMethod npbName 1 ∈
      (test ⟨some "cardio".data, Option.none, some ⟨1, "euclidean".data⟩⟩ Option.none
        "*".data "*".data ["cluster_cardinality".data, npbName] (fun _ => [])
        (fun _ => 0) (fun _ _ => false) (fun _ _ => false)).1 ∧
     TEvent.logScore npbName 1 ∈
      (test ⟨some "cardio".data, Option.none, some ⟨1, "euclidean".data⟩⟩ Option.none
        "*".data "*".data ["cluster_cardinality".data, npbName] (fun _ => [])
        (fun _ => 0) (fun _ _ => false) (fun _ _ => false)).1) := by
  have hcc := claim_C5_amended
    ⟨some "cardio".data, Option.none, some ⟨1, "euclidean".data⟩⟩ Option.none
    "*".data "*".data ["cluster_cardinality".data, npbName] (fun _ => []) (fun _ => 0)
    (fun _ _ => false) (fun _ _ => false) (fun _ _ => rfl) (fun _ _ => rfl)
    (fun o _ => rfl) (MRef.obj ⟨1, "euclidean".data⟩) (by decide)
    "cluster_cardinality".data (by decide)
  have hnp := claim_C5_amended
    ⟨some "cardio".data, Option.none, some ⟨1, "euclidean".data⟩⟩ Option.none
    "*".data "*".data ["cluster_cardinality".data, npbName] (fun _ => []) (fun _ => 0)
    (fun _ _ => false) (fun _ _ => false) (fun _ _ => rfl) (fun _ _ => rfl)
    (fun o _ => rfl) (MRef.obj ⟨1, "euclidean".data⟩) (by decide) npbName (by decide)
  exact ⟨⟨((hcc.1 (by decide)) 0 (by decide)).1, ((hcc.1 (by decide)) 1 (by decide)).2⟩,
    ⟨(hnp.2 (by decide)).1, (hnp.2 (by decide)).2⟩⟩

/-- Counterexample to claim C5 as stated: with `n_points_in_ball` selected
on a manifold of depth 1, the command completes but the method is never
invoked at depth 0 (it is invoked at depth 1 only). -/
theorem claim_C5_counterexample :
    (test ⟨some "cardio".data, Option.none, some ⟨1, "euclidean".data⟩⟩ (some npbName)
        "*".data "*".data [npbName, knName, "cluster_cardinality".data] (fun _ => [])
        (fun _ => 0) (fun _ _ => false) (fun _ _ => false)).2 = true ∧
    TEvent.callMethod npbName 1 ∈
      (test ⟨some "cardio".data, Option.none, some ⟨1, "euclidean".data⟩⟩ (some npbName)
        "*".data "*".data [npbName, knName, "cluster_cardinality".data] (fun _ => [])
        (fun _ => 0) (fun _ _ => false) (fun _ _ => false)).1 ∧
    TEvent.callMethod npbName 0 ∉
      (test ⟨some "cardio".data, Option.none, some ⟨1, "euclidean".data⟩⟩ (some npbName)
        "*".data "*".data [npbName, knName, "cluster_cardinality".data] (fun _ => [])
        (fun _ => 0) (fun _ _ => false) (fun _ _ => false)).1 := by
  decide

/-! ## Lemmas about the `plot_results` command -/

theorem intRange_mem (start stop d : Int) :
    d ∈ intRange start stop ↔ start ≤ d ∧ d < stop := by
  unfold intRange
  simp only [List.mem_map, List.mem_range]
  constructor
  · rintro ⟨k, hk, rfl⟩
    omega
  · rintro ⟨h1, h2⟩
    refine ⟨(d - start).toNat, by omega, by omega⟩

theorem plotSweep_mem (maxD startingDepth : Int) (methods plots : List Str)
    (p m : Str) (d : Int) :
    PEvent.plotCall p m d ∈ plotSweep maxD startingDepth methods plots ↔
      (m ∈ methods ∧ p ∈ plots ∧ startingDepth ≤ d ∧ d ≤ maxD ∧
        ¬((m = npbName ∨ m = knName) ∧ d < maxD)) := by
  unfold plotSweep
  simp only [List.mem_flatMap]
  constructor
  · rintro ⟨m', hm', d', hd', hmem⟩
    unfold plotIter at hmem
    by_cases hskip : (m' = npbName ∨ m' = knName) ∧ d' < maxD
    · rw [if_pos hskip] at hmem
      simp at hmem
    · rw [if_neg hskip] at hmem
      obtain ⟨p', hp', heq⟩ := List.mem_map.mp hmem
      obtain ⟨he1, he2, he3⟩ : p' = p ∧ m' = m ∧ d' = d := by
        simpa [PEvent.plotCall.injEq] using heq
      rw [he2, he3] at hskip
      rw [he3] at hd'
      rw [he2] at hm'
      rw [he1] at hp'
      obtain ⟨hr1, hr2⟩ := (intRange_mem startingDepth (maxD + 1) d).mp hd'
      exact ⟨hm', hp', hr1, by omega, hskip⟩
  · rintro ⟨hm, hp, h1, h2, hns⟩
    refine ⟨m, hm, d, (intRange_mem startingDepth (maxD + 1) d).mpr ⟨h1, by omega⟩, ?_⟩
    unfold plotIter
    rw [if_neg hns]
    exact List.mem_map.mpr ⟨p, hp, rfl⟩

theorem plotManifold_eq (stDataset : Option Str) (methods plots : List Str)
    (startingDepth : Int) (loadDepth : Str → Nat) (ref : MRef)
    (hobj : ∀ o, ref = MRef.obj o → pyTruthy stDataset = true)
    (hparse : ∀ p, ref = MRef.path p → pyTruthy stDataset = false →
      (_meta_from_path p).isSome) :
    ∃ pre, (plotManifold stDataset methods plots startingDepth loadDepth ref).1 =
        pre ++ plotSweep (refDepth loadDepth ref : Int) startingDepth methods plots ∧
      (∀ p' m d, PEvent.plotCall p' m d ∉ pre) ∧
      (plotManifold stDataset methods plots startingDepth loadDepth ref).2 = true := by
  cases ref with
  | path p =>
    by_cases h : pyTruthy stDataset = true
    · refine ⟨[PEvent.readData (stDataset.getD []), PEvent.loadManifold p], ?_, by simp, ?_⟩
      · simp only [plotManifold, h, if_true]
        rfl
      · simp only [plotManifold, h, if_true]
    · obtain ⟨meta, hmeta⟩ := Option.isSome_iff_exists.mp
        (hparse p rfl (by simpa using h))
      refine ⟨[PEvent.readData meta.dataset, PEvent.loadManifold p], ?_, by simp, ?_⟩
      · simp [plotManifold, h, hmeta, refDepth]
      · simp [plotManifold, h, hmeta]
  | obj o =>
    have ht := hobj o rfl
    refine ⟨[PEvent.readData (stDataset.getD [])], ?_, by simp, ?_⟩
    · simp only [plotManifold, ht, if_true]
      rfl
    · simp only [plotManifold, ht, if_true]

/-- Claim C10: in both the `test` and `plot-results` commands (per
processed manifold, under exception-free execution), the methods
`n_points_in_ball` and `k_nearest` are skipped at every depth strictly
less than `manifold.depth` and are evaluated only at depth equal to
`manifold.depth` (in `plot-results`: once per selected plot, and exactly
when the sweep reaches that depth, i.e. `starting_depth ≤ manifold.depth`);
all other methods are evaluated at every depth of the sweep (`0..depth`
for `test`, `starting_depth..depth` for `plot-results`, once per selected
plot). -/
theorem claim_C10 (stDataset : Option Str) (methods plots : List Str)
    (loadDepth : Str → Nat) (mR sR : Str → Nat → Bool) (startingDepth : Int)
    (ref : MRef)
    (hmr : ∀ m' d', mR m' d' = false)
    (hobj : ∀ o, ref = MRef.obj o → pyTruthy stDataset = true)
    (hparse : ∀ p, ref = MRef.path p → pyTruthy stDataset = false →
      (_meta_from_path p).isSome)
    (m : Str) (hm : m ∈ methods) :
    ((m = npbName ∨ m = knName) →
      (∀ d : Nat,
        TEvent.callMethod m d ∈ (testManifold stDataset methods loadDepth mR sR ref).1
          ↔ d = refDepth loadDepth ref) ∧
      (∀ (p' : Str) (d : Int),
        PEvent.plotCall p' m d ∈
            (plotManifold stDataset methods plots startingDepth loadDepth ref).1
          ↔ (p' ∈ plots ∧ d = (refDepth loadDepth ref : Int) ∧
              startingDepth ≤ (refDepth loadDepth ref : Int)))) ∧
    (¬(m = npbName ∨ m = knName) →
      (∀ d : Nat, d ≤ refDepth loadDepth ref →
        TEvent.callMethod m d ∈
          (testManifold stDataset methods loadDepth mR sR ref).1) ∧
      (∀ d : Int, startingDepth ≤ d → d ≤ (refDepth loadDepth ref : Int) →
        ∀ p' ∈ plots, PEvent.plotCall p' m d ∈
          (plotManifold stDataset methods plots startingDepth loadDepth ref).1)) := by
  obtain ⟨preT, heqT, hncT, hokT⟩ :=
    testManifold_eq stDataset methods loadDepth mR sR ref hobj
  obtain ⟨preP, heqP, hncP, _⟩ :=
    plotManifold_eq stDataset methods plots startingDepth loadDepth ref hobj hparse
  constructor
  · intro hsp
    constructor
    · intro d
      constructor
      · intro hin
        rw [heqT] at hin
        rcases List.mem_append.mp hin with hpre | hsw
        · exact absurd hpre (hncT m d)
        · obtain ⟨_, hle, hns⟩ := testSweep_call_src hsw
          by_contra hne
          exact hns ⟨hsp, lt_of_le_of_ne hle hne⟩
      · intro hde
        subst hde
        rw [heqT]
        exact List.mem_append_right _
          (testSweep_mem _ mR sR methods hmr m hm _ (le_refl _)
            (fun hc => absurd hc.2 (lt_irrefl _))).1
    · intro p' d
      rw [heqP]
      constructor
      · intro hin
        rcases List.mem_append.mp hin with hpre | hsw
        · exact absurd hpre (hncP p' m d)
        · obtain ⟨_, hp', h1, h2, hns⟩ := (plotSweep_mem _ _ methods plots p' m d).mp hsw
          have hde : d = (refDepth loadDepth ref : Int) := by
            by_contra hne
            exact hns ⟨hsp, lt_of_le_of_ne h2 hne⟩
          exact ⟨hp', hde, hde ▸ h1⟩
      · rintro ⟨hp', hde, hsd⟩
        subst hde
        exact List.mem_append_right _
          ((plotSweep_mem _ _ methods plots p' m _).mpr
            ⟨hm, hp', hsd, le_refl _, fun hc => absurd hc.2 (lt_irrefl _)⟩)
  · intro hnsp
    constructor
    · intro d hd
      rw [heqT]
      exact List.mem_append_right _
        (testSweep_mem _ mR sR methods hmr m hm d hd (fun hc => hnsp hc.1)).1
    · intro d h1 h2 p' hp'
      rw [heqP]
      exact List.mem_append_right _
        ((plotSweep_mem _ _ methods plots p' m d).mpr ⟨hm, hp', h1, h2, fun hc => hnsp hc.1⟩)

/-- Witness for claim C10 at a concrete input: on a depth-1 manifold,
`n_points_in_ball` is not called at depth 0, is called at depth 1, and is
plotted exactly at depth 1. -/
theorem claim_C10_witness :
    TEvent.callMethod npbName 0 ∉
      (testManifold (some "cardio".data) [npbName, "cluster_cardinality".data]
        (fun _ => 0) (fun _ _ => false) (fun _ _ => false)
        (MRef.obj ⟨1, "euclidean".data⟩)).1 ∧
    TEvent.callMethod npbName 1 ∈
      (testManifold (some "cardio".data) [npbName, "cluster_cardinality".data]
        (fun _ => 0) (fun _ _ => false) (fun _ _ => false)
        (MRef.obj ⟨1, "euclidean".data⟩)).1 ∧
    PEvent.plotCall "roc_curve".data npbName 1 ∈
      (plotManifold (some "cardio".data) [npbName, "cluster_cardinality".data]
        ["roc_curve".data] 0 (fun _ => 0) (MRef.obj ⟨1, "euclidean".data⟩)).1 := by
  have h := claim_C10 (some "cardio".data) [npbName, "cluster_cardinality".data]
    ["roc_curve".data] (fun _ => 0) (fun _ _ => false) (fun _ _ => false) 0
    (MRef.obj ⟨1, "euclidean".data⟩) (fun _ _ => rfl) (fun o _ => rfl)
    (fun p hp => by simp at hp) npbName (by decide)
  refine ⟨?_, ?_, ?_⟩
  · intro hin
    have hc := ((h.1 (by decide)).1 0).mp hin
    simp [refDepth] at hc
  · exact ((h.1 (by decide)).1 1).mpr (by decide)
  · exact ((h.1 (by decide)).2 "roc_curve".data 1).mpr ⟨by decide, by decide, by decide⟩
